import Mathlib

/-!
Verification of the daily-steps synchronizer (`src/daily-steps.py`).

The script fetches Garmin daily step records and reconciles each against a
Notion database: it queries for an existing row keyed by
`(Date, Activity Type = "Walking")`, creates a row when none matches, and
updates the matched row when any tracked numeric field differs.

We embed the pure content of the script: the field mappings built by
`create_daily_steps` and `update_daily_steps`, the staleness test
`steps_need_update`, the existence check `daily_steps_exist`, the
per-record loop body of `main`, the date-window computation of
`get_all_daily_steps`, and the login control flow of
`login_garmin_with_mfa` (with the external Garmin calls given by an
oracle environment and the observable effects recorded in a trace).

Numbers are modelled as rationals: Garmin step counts are integers,
Notion numbers and Python floats both embed into ℚ, and Python's
`round(x, 2)` (banker's rounding) is `pyRound2` below.
-/

namespace GarminToNotion

/-- Python `round` to an integer: round-half-to-even (banker's rounding),
modelled on ℚ. -/
def pyRoundToInt (q : ℚ) : ℤ :=
  let f : ℤ := ⌊q⌋
  let frac : ℚ := q - (f : ℚ)
  if frac < 1/2 then f
  else if 1/2 < frac then f + 1
  else if f % 2 = 0 then f else f + 1

/-- Python `round(q, 2)`: round to 2 decimal places, half to even. -/
def pyRound2 (q : ℚ) : ℚ := ((pyRoundToInt (q * 100) : ℚ)) / 100

/-- One Garmin daily-steps record, as consumed through `steps.get(...)`:
every field access uses `.get`, so every field is nullable. -/
structure DailyStepRecord where
  calendarDate : Option String
  totalSteps : Option ℚ
  stepGoal : Option ℚ
  totalDistance : Option ℚ
deriving DecidableEq

/-- An existing Notion row as read by the script: its page id and the
`number` payloads of the three properties `steps_need_update` inspects
(each may be null in Notion). -/
structure NotionPage where
  id : String
  totalStepsNum : Option ℚ
  stepGoalNum : Option ℚ
  totalDistanceKmNum : Option ℚ
deriving DecidableEq

/-- A Notion property value as built by the script. -/
inductive PropValue where
  | titleVal (content : String)
  | dateVal (start : Option String)
  | numberVal (n : Option ℚ)
deriving DecidableEq

/-- A write issued against the Notion API: `client.pages.create` with a
parent database and properties, or `client.pages.update` with a page id
and properties. -/
inductive Write where
  | create (databaseId : String) (props : List (String × PropValue))
  | update (pageId : String) (props : List (String × PropValue))
deriving DecidableEq

/-- `total_distance = steps.get('totalDistance'); if total_distance is None:
total_distance = 0` — the zero-default applied to distance only. -/
def distOrZero (d : Option ℚ) : ℚ :=
  match d with
  | none => 0
  | some x => x

/-- `daily_steps_exist`: `results[0] if results else None`, on the list of
rows the Notion query returned. -/
def daily_steps_exist (results : List NotionPage) : Option NotionPage :=
  results.head?

/-- `steps_need_update(existing_steps, new_steps)`: true when any of the
three tracked numbers differs between the existing row and the record.
Steps and goal are compared raw (nullable); distance gets the zero-default
and the km conversion `round(total_distance / 1000, 2)`. -/
def steps_need_update (existing_steps : NotionPage) (new_steps : DailyStepRecord) : Bool :=
  let total_distance : ℚ := distOrZero new_steps.totalDistance
  decide (existing_steps.totalStepsNum ≠ new_steps.totalSteps) ||
  decide (existing_steps.stepGoalNum ≠ new_steps.stepGoal) ||
  decide (existing_steps.totalDistanceKmNum ≠ some (pyRound2 (total_distance / 1000)))

/-- The `properties` dict built by `update_daily_steps`. -/
def update_properties (new_steps : DailyStepRecord) : List (String × PropValue) :=
  let total_distance : ℚ := distOrZero new_steps.totalDistance
  [("Activity Type", PropValue.titleVal "Walking"),
   ("Total Steps", PropValue.numberVal new_steps.totalSteps),
   ("Step Goal", PropValue.numberVal new_steps.stepGoal),
   ("Total Distance (km)", PropValue.numberVal (some (pyRound2 (total_distance / 1000))))]

/-- `update_daily_steps(client, existing_steps, new_steps)`: the
`client.pages.update` call it issues. -/
def update_daily_steps (existing_steps : NotionPage) (new_steps : DailyStepRecord) : Write :=
  Write.update existing_steps.id (update_properties new_steps)

/-- The `properties` dict built by `create_daily_steps`. -/
def create_properties (steps : DailyStepRecord) : List (String × PropValue) :=
  let total_distance : ℚ := distOrZero steps.totalDistance
  [("Activity Type", PropValue.titleVal "Walking"),
   ("Date", PropValue.dateVal steps.calendarDate),
   ("Total Steps", PropValue.numberVal steps.totalSteps),
   ("Step Goal", PropValue.numberVal steps.stepGoal),
   ("Total Distance (km)", PropValue.numberVal (some (pyRound2 (total_distance / 1000))))]

/-- `create_daily_steps(client, database_id, steps)`: the
`client.pages.create` call it issues. -/
def create_daily_steps (database_id : String) (steps : DailyStepRecord) : Write :=
  Write.create database_id (create_properties steps)

/-- The per-record body of `main`'s loop: query the database for the
record's date (the query results are a parameter, since the store is
remote), then create when nothing matched, update when the match is
stale, and do nothing otherwise. Returns the writes issued for this
record. -/
def reconcile_record (database_id : String) (query_results : List NotionPage)
    (steps : DailyStepRecord) : List Write :=
  match daily_steps_exist query_results with
  | some existing_steps =>
      if steps_need_update existing_steps steps
      then [update_daily_steps existing_steps steps]
      else []
  | none => [create_daily_steps database_id steps]

/-- Look a key up in a properties list (Python dict access). -/
def lookupProp (props : List (String × PropValue)) (key : String) : Option PropValue :=
  (props.find? (fun p => p.1 == key)).map Prod.snd

/-- The `number` payload stored under a key, as Notion would serve it
back (null when the key is absent or not a number property). -/
def numberOf (props : List (String × PropValue)) (key : String) : Option ℚ :=
  match lookupProp props key with
  | some (PropValue.numberVal n) => n
  | _ => none

/-- The row the destination holds after faithfully storing a write's
properties under page id `pageId`. -/
def storePage (pageId : String) (props : List (String × PropValue)) : NotionPage :=
  { id := pageId
    totalStepsNum := numberOf props "Total Steps"
    stepGoalNum := numberOf props "Step Goal"
    totalDistanceKmNum := numberOf props "Total Distance (km)" }

/-- The row resulting from a write, when the destination stores it
faithfully: a create produces a fresh page (id assigned by the service),
an update rewrites the page it targets. -/
def pageAfterWrite (w : Write) (newId : String) : NotionPage :=
  match w with
  | Write.create _ props => storePage newId props
  | Write.update pageId props => storePage pageId props

/-! ### Date window (`get_all_daily_steps`)

Dates are modelled as integers (days since an epoch); `date.today()` is a
parameter. The script computes `startdate = today - 1` and then
`[startdate + x for x in range((today - startdate).days)]`. -/

/-- The `daterange` list built inside `get_all_daily_steps`. -/
def get_all_daily_steps_daterange (today : ℤ) : List ℤ :=
  let startdate : ℤ := today - 1
  (List.range (today - startdate).toNat).map (fun x => startdate + (x : ℤ))

/-- `get_all_daily_steps(garmin)`: one `garmin.get_daily_steps(d, d)` call
per date in the range, results concatenated in order. The remote call is
the parameter `fetch`. -/
def get_all_daily_steps (today : ℤ) (fetch : ℤ → List DailyStepRecord) :
    List DailyStepRecord :=
  (get_all_daily_steps_daterange today).foldl
    (fun daily_steps d => daily_steps ++ fetch d) []

/-! ### Auth session manager (`login_garmin_with_mfa`)

The Garmin library calls are external; we model their outcomes as an
oracle environment and record each observable external action in an
ordered trace. The local credential store (`~/.garminconnect`) is state
threaded through: a successful `g.garth.dump` overwrites it with the
fresh token bundle. -/

/-- Observable external actions of `login_garmin_with_mfa`, in order:
the token-store login attempt, the primary credential login, the
interactive `input()` prompt, the `resume_login` call, and the
`g.garth.dump` token persistence. -/
inductive AuthEvent where
  | tokenLoginCall
  | mfaLoginCall
  | promptCall
  | resumeLoginCall
  | dumpCall
deriving DecidableEq

/-- The session handle returned: restored from cached tokens, or freshly
logged in. -/
inductive Session where
  | fromTokens
  | fromMfa
deriving DecidableEq

/-- Oracle outcomes of the external Garmin calls. Errors are opaque
strings (Python exceptions). `mfaLogin` yields the `(result1, result2)`
pair of `g.login()`; `resumeLogin` takes the challenge and the entered
code; `newTokens` is the token bundle a successful dump writes. -/
structure GarminEnv where
  tokenLogin : Except String Unit
  mfaLogin : Except String (String × String)
  resumeLogin : String → String → Except String Unit
  promptCode : String
  dumpTokens : Except String Unit
  newTokens : String

/-- `login_garmin_with_mfa(email, password)`, given the oracle `env` and
the prior credential-store contents `store0`. Returns the outcome
(session or propagated exception), the trace of external actions, and
the final credential-store contents. The `try/except: pass` around the
token login swallows its failure; every later failure propagates. -/
def login_garmin_with_mfa (env : GarminEnv) (store0 : Option String) :
    Except String Session × List AuthEvent × Option String :=
  match env.tokenLogin with
  | Except.ok _ =>
      (Except.ok Session.fromTokens, [AuthEvent.tokenLoginCall], store0)
  | Except.error _ =>
      match env.mfaLogin with
      | Except.error e =>
          (Except.error e, [AuthEvent.tokenLoginCall, AuthEvent.mfaLoginCall], store0)
      | Except.ok (result1, result2) =>
          if result1 = "needs_mfa" then
            let mfa_code := env.promptCode
            match env.resumeLogin result2 mfa_code with
            | Except.error e =>
                (Except.error e,
                 [AuthEvent.tokenLoginCall, AuthEvent.mfaLoginCall,
                  AuthEvent.promptCall, AuthEvent.resumeLoginCall], store0)
            | Except.ok _ =>
                match env.dumpTokens with
                | Except.error e =>
                    (Except.error e,
                     [AuthEvent.tokenLoginCall, AuthEvent.mfaLoginCall,
                      AuthEvent.promptCall, AuthEvent.resumeLoginCall,
                      AuthEvent.dumpCall], store0)
                | Except.ok _ =>
                    (Except.ok Session.fromMfa,
                     [AuthEvent.tokenLoginCall, AuthEvent.mfaLoginCall,
                      AuthEvent.promptCall, AuthEvent.resumeLoginCall,
                      AuthEvent.dumpCall], some env.newTokens)
          else
            match env.dumpTokens with
            | Except.error e =>
                (Except.error e,
                 [AuthEvent.tokenLoginCall, AuthEvent.mfaLoginCall,
                  AuthEvent.dumpCall], store0)
            | Except.ok _ =>
                (Except.ok Session.fromMfa,
                 [AuthEvent.tokenLoginCall, AuthEvent.mfaLoginCall,
                  AuthEvent.dumpCall], some env.newTokens)

/-! ## Claims -/

/-- C8: the date-window computation always yields exactly one day —
yesterday (`today - 1`), with today excluded — and the fetch loop
therefore queries the source client exactly once, for that single day. -/
theorem get_all_daily_steps_fetches_exactly_yesterday
    (today : ℤ) (fetch : ℤ → List DailyStepRecord) :
    get_all_daily_steps_daterange today = [today - 1] ∧
    get_all_daily_steps today fetch = fetch (today - 1) := by
  have hrange : get_all_daily_steps_daterange today = [today - 1] := by
    simp [get_all_daily_steps_daterange, sub_sub_cancel, List.range_succ]
  refine ⟨hrange, ?_⟩
  unfold get_all_daily_steps
  rw [hrange]
  simp

/-- C1: for a record whose destination query returned no matching row,
the reconciler issues exactly one write, a create (no update), whose
properties are Activity Type = "Walking", Date = the record's
calendarDate, Total Steps = the raw totalSteps, Step Goal = the raw
stepGoal, and Total Distance (km) = round((totalDistance or 0)/1000, 2). -/
theorem reconcile_no_match_creates
    (database_id : String) (r : DailyStepRecord) :
    reconcile_record database_id [] r =
      [Write.create database_id (create_properties r)] ∧
    lookupProp (create_properties r) "Activity Type" =
      some (PropValue.titleVal "Walking") ∧
    lookupProp (create_properties r) "Date" =
      some (PropValue.dateVal r.calendarDate) ∧
    lookupProp (create_properties r) "Total Steps" =
      some (PropValue.numberVal r.totalSteps) ∧
    lookupProp (create_properties r) "Step Goal" =
      some (PropValue.numberVal r.stepGoal) ∧
    lookupProp (create_properties r) "Total Distance (km)" =
      some (PropValue.numberVal (some (pyRound2 (distOrZero r.totalDistance / 1000)))) := by
  refine ⟨rfl, ?_, ?_, ?_, ?_, ?_⟩ <;> rfl

/-- C10: an update's property set is exactly
{Activity Type, Total Steps, Step Goal, Total Distance (km)} — it omits
Date (so an update leaves the row's Date untouched), whereas a create
does set Date. -/
theorem update_omits_date_create_sets_date (r : DailyStepRecord) :
    (update_properties r).map Prod.fst =
      ["Activity Type", "Total Steps", "Step Goal", "Total Distance (km)"] ∧
    lookupProp (update_properties r) "Date" = none ∧
    (create_properties r).map Prod.fst =
      ["Activity Type", "Date", "Total Steps", "Step Goal", "Total Distance (km)"] ∧
    lookupProp (create_properties r) "Date" =
      some (PropValue.dateVal r.calendarDate) := by
  refine ⟨rfl, rfl, rfl, rfl⟩

/-- Helper: the staleness test holds exactly when one of the three
tracked numbers differs (steps and goal raw, distance zero-defaulted,
converted and rounded). -/
theorem steps_need_update_iff (ex : NotionPage) (r : DailyStepRecord) :
    steps_need_update ex r = true ↔
      (ex.totalStepsNum ≠ r.totalSteps ∨ ex.stepGoalNum ≠ r.stepGoal ∨
       ex.totalDistanceKmNum ≠ some (pyRound2 (distOrZero r.totalDistance / 1000))) := by
  simp [steps_need_update, or_assoc]

/-- C2: when the query matched an existing row, the reconciler issues
exactly one update — rewriting all four properties from the record — if
and only if one of Total Steps, Step Goal, or the rounded
Total Distance (km) differs between the row and the record; when all
three agree it issues zero writes. -/
theorem reconcile_match_update_iff_differs
    (database_id : String) (ex : NotionPage) (rest : List NotionPage)
    (r : DailyStepRecord) :
    (reconcile_record database_id (ex :: rest) r =
        [Write.update ex.id (update_properties r)]
      ↔ (ex.totalStepsNum ≠ r.totalSteps ∨ ex.stepGoalNum ≠ r.stepGoal ∨
         ex.totalDistanceKmNum ≠ some (pyRound2 (distOrZero r.totalDistance / 1000)))) ∧
    (reconcile_record database_id (ex :: rest) r = []
      ↔ (ex.totalStepsNum = r.totalSteps ∧ ex.stepGoalNum = r.stepGoal ∧
         ex.totalDistanceKmNum = some (pyRound2 (distOrZero r.totalDistance / 1000)))) ∧
    lookupProp (update_properties r) "Activity Type" =
      some (PropValue.titleVal "Walking") ∧
    lookupProp (update_properties r) "Total Steps" =
      some (PropValue.numberVal r.totalSteps) ∧
    lookupProp (update_properties r) "Step Goal" =
      some (PropValue.numberVal r.stepGoal) ∧
    lookupProp (update_properties r) "Total Distance (km)" =
      some (PropValue.numberVal (some (pyRound2 (distOrZero r.totalDistance / 1000)))) := by
  have hcons : reconcile_record database_id (ex :: rest) r =
      (if steps_need_update ex r
       then [Write.update ex.id (update_properties r)] else []) := rfl
  refine ⟨?_, ?_, rfl, rfl, rfl, rfl⟩
  · rw [hcons, ← steps_need_update_iff]
    cases hb : steps_need_update ex r <;> simp [hb]
  · rw [hcons]
    cases hb : steps_need_update ex r
    · have hnd : ¬ (ex.totalStepsNum ≠ r.totalSteps ∨ ex.stepGoalNum ≠ r.stepGoal ∨
          ex.totalDistanceKmNum ≠ some (pyRound2 (distOrZero r.totalDistance / 1000))) := by
        rw [← steps_need_update_iff]
        simp [hb]
      simp [hb]
      tauto
    · have hd := (steps_need_update_iff ex r).mp hb
      simp [hb]
      tauto

/-- C4: the staleness comparison uses the raw, possibly-null Total Steps
and Step Goal (a null record value differs from a stored 0, so missing is
not coerced to zero there), while a missing totalDistance is coerced to
exactly 0 before `round(distance / 1000, 2)` in the comparison and in
both write paths: a record with absent totalDistance is stored with
Total Distance (km) = 0. -/
theorem comparison_raw_ints_distance_zero_default
    (ex : NotionPage) (r : DailyStepRecord) :
    (r.totalDistance = none →
      (steps_need_update ex r =
        (decide (ex.totalStepsNum ≠ r.totalSteps) ||
         decide (ex.stepGoalNum ≠ r.stepGoal) ||
         decide (ex.totalDistanceKmNum ≠ some 0))) ∧
      numberOf (create_properties r) "Total Distance (km)" = some 0 ∧
      numberOf (update_properties r) "Total Distance (km)" = some 0) ∧
    (r.totalSteps = none → ex.totalStepsNum = some 0 →
      steps_need_update ex r = true) ∧
    (r.stepGoal = none → ex.stepGoalNum = some 0 →
      steps_need_update ex r = true) := by
  have hz : pyRound2 0 = 0 := by norm_num [pyRound2, pyRoundToInt]
  refine ⟨fun hd => ⟨?_, ?_, ?_⟩, fun hs h0 => ?_, fun hs h0 => ?_⟩
  · simp [steps_need_update, hd, distOrZero, hz]
  · simp [numberOf, lookupProp, create_properties, hd, distOrZero, hz]
  · simp [numberOf, lookupProp, update_properties, hd, distOrZero, hz]
  · simp [steps_need_update, hs, h0]
  · simp [steps_need_update, hs, h0]

/-- Helper: a row storing a create's properties is never stale against
the record that produced it. -/
theorem steps_need_update_storePage_create (pid : String) (r : DailyStepRecord) :
    steps_need_update (storePage pid (create_properties r)) r = false := by
  have h1 : numberOf (create_properties r) "Total Steps" = r.totalSteps := rfl
  have h2 : numberOf (create_properties r) "Step Goal" = r.stepGoal := rfl
  have h3 : numberOf (create_properties r) "Total Distance (km)" =
      some (pyRound2 (distOrZero r.totalDistance / 1000)) := rfl
  simp [steps_need_update, storePage, h1, h2, h3]

/-- Helper: a row storing an update's properties is never stale against
the record that produced it. -/
theorem steps_need_update_storePage_update (pid : String) (r : DailyStepRecord) :
    steps_need_update (storePage pid (update_properties r)) r = false := by
  have h1 : numberOf (update_properties r) "Total Steps" = r.totalSteps := rfl
  have h2 : numberOf (update_properties r) "Step Goal" = r.stepGoal := rfl
  have h3 : numberOf (update_properties r) "Total Distance (km)" =
      some (pyRound2 (distOrZero r.totalDistance / 1000)) := rfl
  simp [steps_need_update, storePage, h1, h2, h3]

/-- C3: reconciliation is idempotent. Whatever write the first pass
issues for a record, once the destination has stored it faithfully, a
second pass over the same record — whose query now returns the row just
written — finds the staleness test false and issues zero writes. -/
theorem reconcile_idempotent
    (database_id newId : String) (results : List NotionPage) (r : DailyStepRecord) :
    ∀ w ∈ reconcile_record database_id results r,
      reconcile_record database_id [pageAfterWrite w newId] r = [] := by
  intro w hw
  cases results with
  | nil =>
      have hw' : w = create_daily_steps database_id r := by
        simpa [reconcile_record, daily_steps_exist] using hw
      subst hw'
      simp [reconcile_record, daily_steps_exist, pageAfterWrite, create_daily_steps,
        steps_need_update_storePage_create]
  | cons ex rest =>
      cases hb : steps_need_update ex r with
      | false =>
          simp [reconcile_record, daily_steps_exist, hb] at hw
      | true =>
          have hw' : w = update_daily_steps ex r := by
            simpa [reconcile_record, daily_steps_exist, hb] using hw
          subst hw'
          simp [reconcile_record, daily_steps_exist, pageAfterWrite, update_daily_steps,
            steps_need_update_storePage_update]

/-- Witness for C3 at a concrete record: after the first pass's create is
stored, the second pass issues zero writes. -/
theorem reconcile_idempotent_witness :
    reconcile_record "db"
      [pageAfterWrite (create_daily_steps "db"
        { calendarDate := some "2024-05-01", totalSteps := some 8000,
          stepGoal := some 10000, totalDistance := some 6000 }) "p1"]
      { calendarDate := some "2024-05-01", totalSteps := some 8000,
        stepGoal := some 10000, totalDistance := some 6000 } = [] :=
  reconcile_idempotent "db" "p1" []
    { calendarDate := some "2024-05-01", totalSteps := some 8000,
      stepGoal := some 10000, totalDistance := some 6000 }
    (create_daily_steps "db"
      { calendarDate := some "2024-05-01", totalSteps := some 8000,
        stepGoal := some 10000, totalDistance := some 6000 })
    (List.mem_singleton.mpr rfl)

/-- C9: the at-most-one-row-per-(date, "Walking") invariant is
preserved: with the pre-write query's results in hand, a create is
issued only when the query matched nothing; when it matched, only the
first returned row is ever considered (the rest are ignored) and no
create is issued for that date. -/
theorem reconcile_preserves_uniqueness
    (database_id : String) (results : List NotionPage) (r : DailyStepRecord) :
    (results = [] →
      reconcile_record database_id results r = [create_daily_steps database_id r]) ∧
    (∀ ex rest, results = ex :: rest →
      reconcile_record database_id results r = reconcile_record database_id [ex] r ∧
      ∀ db props, Write.create db props ∉ reconcile_record database_id results r) := by
  constructor
  · intro h
    subst h
    rfl
  · intro ex rest h
    subst h
    constructor
    · rfl
    · intro db props hmem
      cases hb : steps_need_update ex r with
      | false => simp [reconcile_record, daily_steps_exist, hb] at hmem
      | true =>
          simp [reconcile_record, daily_steps_exist, hb, update_daily_steps] at hmem

/-- Witness for C9 at concrete inputs: an empty query result yields the
create, and a matched query (with a stale row) yields no create. -/
theorem reconcile_preserves_uniqueness_witness :
    reconcile_record "db" []
      { calendarDate := some "2024-05-01", totalSteps := some 8000,
        stepGoal := some 10000, totalDistance := some 6000 } =
      [create_daily_steps "db"
        { calendarDate := some "2024-05-01", totalSteps := some 8000,
          stepGoal := some 10000, totalDistance := some 6000 }] ∧
    Write.create "db" [] ∉
      reconcile_record "db"
        [{ id := "p1", totalStepsNum := some 7000, stepGoalNum := some 10000,
           totalDistanceKmNum := some 6 }]
        { calendarDate := some "2024-05-01", totalSteps := some 8000,
          stepGoal := some 10000, totalDistance := some 6000 } :=
  ⟨(reconcile_preserves_uniqueness "db" []
      { calendarDate := some "2024-05-01", totalSteps := some 8000,
        stepGoal := some 10000, totalDistance := some 6000 }).1 rfl,
   ((reconcile_preserves_uniqueness "db"
      [{ id := "p1", totalStepsNum := some 7000, stepGoalNum := some 10000,
         totalDistanceKmNum := some 6 }]
      { calendarDate := some "2024-05-01", totalSteps := some 8000,
        stepGoal := some 10000, totalDistance := some 6000 }).2
      { id := "p1", totalStepsNum := some 7000, stepGoalNum := some 10000,
        totalDistanceKmNum := some 6 } [] rfl).2 "db" []⟩

/-- Helper: the trace of external actions is always one of the five
straight-line paths through `login_garmin_with_mfa`. -/
theorem login_trace_shapes (env : GarminEnv) (store0 : Option String) :
    (login_garmin_with_mfa env store0).2.1 ∈
      [[AuthEvent.tokenLoginCall],
       [AuthEvent.tokenLoginCall, AuthEvent.mfaLoginCall],
       [AuthEvent.tokenLoginCall, AuthEvent.mfaLoginCall, AuthEvent.promptCall,
        AuthEvent.resumeLoginCall],
       [AuthEvent.tokenLoginCall, AuthEvent.mfaLoginCall, AuthEvent.promptCall,
        AuthEvent.resumeLoginCall, AuthEvent.dumpCall],
       [AuthEvent.tokenLoginCall, AuthEvent.mfaLoginCall, AuthEvent.dumpCall]] := by
  unfold login_garmin_with_mfa
  cases env.tokenLogin with
  | ok u => simp
  | error e =>
      cases env.mfaLogin with
      | error e' => simp
      | ok p =>
          obtain ⟨r1, ch⟩ := p
          by_cases hr : r1 = "needs_mfa"
          · simp only [hr, if_pos rfl]
            cases env.resumeLogin ch env.promptCode with
            | error e2 => simp
            | ok u =>
                cases env.dumpTokens with
                | error e3 => simp
                | ok u2 => simp
          · simp only [if_neg hr]
            cases env.dumpTokens with
            | error e3 => simp
            | ok u2 => simp

/-- C6: when the cached-token restore succeeds, the session restored
from tokens is returned immediately: the only external action is the
token-store login, so no interactive prompt occurs, no token dump
occurs, and the credential store is left unchanged. -/
theorem auth_cached_token_path (env : GarminEnv) (store0 : Option String)
    (h : env.tokenLogin = Except.ok ()) :
    login_garmin_with_mfa env store0 =
      (Except.ok Session.fromTokens, [AuthEvent.tokenLoginCall], store0) ∧
    AuthEvent.promptCall ∉ (login_garmin_with_mfa env store0).2.1 ∧
    AuthEvent.dumpCall ∉ (login_garmin_with_mfa env store0).2.1 ∧
    (login_garmin_with_mfa env store0).2.2 = store0 := by
  have key : login_garmin_with_mfa env store0 =
      (Except.ok Session.fromTokens, [AuthEvent.tokenLoginCall], store0) := by
    unfold login_garmin_with_mfa
    rw [h]
  refine ⟨key, ?_, ?_, ?_⟩ <;> rw [key] <;> simp

/-- Witness for C6: a concrete environment whose token restore succeeds
returns the restored session with the store untouched. -/
theorem auth_cached_token_path_witness :
    login_garmin_with_mfa
      { tokenLogin := Except.ok (), mfaLogin := Except.error "unused",
        resumeLogin := fun _ _ => Except.ok (), promptCode := "000000",
        dumpTokens := Except.ok (), newTokens := "tok" } (some "old") =
      (Except.ok Session.fromTokens, [AuthEvent.tokenLoginCall], some "old") :=
  (auth_cached_token_path
    { tokenLogin := Except.ok (), mfaLogin := Except.error "unused",
      resumeLogin := fun _ _ => Except.ok (), promptCode := "000000",
      dumpTokens := Except.ok (), newTokens := "tok" } (some "old") rfl).1

/-- C7: when the token restore fails and the primary login succeeds, a
"needs_mfa" response leads to exactly one interactive prompt, then the
resume and the token dump, and the credential store ends holding the
fresh token bundle (overwriting whatever it held); any other response
leads to no prompt at all, with the tokens still dumped and the store
still ending with the fresh bundle. -/
theorem auth_mfa_prompt_and_persist (env : GarminEnv) (store0 : Option String)
    (e ch r1 : String)
    (htok : env.tokenLogin = Except.error e)
    (hmfa : env.mfaLogin = Except.ok (r1, ch))
    (hdump : env.dumpTokens = Except.ok ()) :
    (r1 = "needs_mfa" → env.resumeLogin ch env.promptCode = Except.ok () →
      ((login_garmin_with_mfa env store0).2.1.count AuthEvent.promptCall = 1 ∧
       (login_garmin_with_mfa env store0).2.1 =
         [AuthEvent.tokenLoginCall, AuthEvent.mfaLoginCall, AuthEvent.promptCall,
          AuthEvent.resumeLoginCall, AuthEvent.dumpCall] ∧
       (login_garmin_with_mfa env store0).2.2 = some env.newTokens ∧
       (login_garmin_with_mfa env store0).1 = Except.ok Session.fromMfa)) ∧
    (r1 ≠ "needs_mfa" →
      ((login_garmin_with_mfa env store0).2.1.count AuthEvent.promptCall = 0 ∧
       (login_garmin_with_mfa env store0).2.1 =
         [AuthEvent.tokenLoginCall, AuthEvent.mfaLoginCall, AuthEvent.dumpCall] ∧
       (login_garmin_with_mfa env store0).2.2 = some env.newTokens ∧
       (login_garmin_with_mfa env store0).1 = Except.ok Session.fromMfa)) := by
  constructor
  · intro hr hres
    subst hr
    have key : login_garmin_with_mfa env store0 =
        (Except.ok Session.fromMfa,
         [AuthEvent.tokenLoginCall, AuthEvent.mfaLoginCall, AuthEvent.promptCall,
          AuthEvent.resumeLoginCall, AuthEvent.dumpCall], some env.newTokens) := by
      simp [login_garmin_with_mfa, htok, hmfa, hres, hdump]
    rw [key]
    refine ⟨rfl, rfl, rfl, rfl⟩
  · intro hr
    have key : login_garmin_with_mfa env store0 =
        (Except.ok Session.fromMfa,
         [AuthEvent.tokenLoginCall, AuthEvent.mfaLoginCall, AuthEvent.dumpCall],
         some env.newTokens) := by
      simp [login_garmin_with_mfa, htok, hmfa, hr, hdump]
    rw [key]
    refine ⟨rfl, rfl, rfl, rfl⟩

/-- Witness for C7: a concrete environment with failed restore and a
"needs_mfa" login response prompts exactly once and persists the fresh
bundle. -/
theorem auth_mfa_prompt_and_persist_witness :
    (login_garmin_with_mfa
      { tokenLogin := Except.error "expired",
        mfaLogin := Except.ok ("needs_mfa", "challenge"),
        resumeLogin := fun _ _ => Except.ok (), promptCode := "123456",
        dumpTokens := Except.ok (), newTokens := "tok2" } none).2.1.count
        AuthEvent.promptCall = 1 ∧
    (login_garmin_with_mfa
      { tokenLogin := Except.error "expired",
        mfaLogin := Except.ok ("needs_mfa", "challenge"),
        resumeLogin := fun _ _ => Except.ok (), promptCode := "123456",
        dumpTokens := Except.ok (), newTokens := "tok2" } none).2.2 = some "tok2" := by
  have h := (auth_mfa_prompt_and_persist
    { tokenLogin := Except.error "expired",
      mfaLogin := Except.ok ("needs_mfa", "challenge"),
      resumeLogin := fun _ _ => Except.ok (), promptCode := "123456",
      dumpTokens := Except.ok (), newTokens := "tok2" } none
    "expired" "challenge" "needs_mfa" rfl rfl rfl).1 rfl rfl
  exact ⟨h.1, h.2.2.1⟩

/-- Witness for C4 at concrete inputs: a record with null totalSteps
against a stored 0 is treated as different (raw comparison), and a
record with absent totalDistance is stored with distance 0. -/
theorem comparison_raw_ints_distance_zero_default_witness :
    steps_need_update
      { id := "p1", totalStepsNum := some 0, stepGoalNum := some 10000,
        totalDistanceKmNum := some 0 }
      { calendarDate := some "2024-05-01", totalSteps := none,
        stepGoal := some 10000, totalDistance := none } = true ∧
    numberOf (create_properties
      { calendarDate := some "2024-05-01", totalSteps := none,
        stepGoal := some 10000, totalDistance := none }) "Total Distance (km)" =
      some 0 :=
  ⟨(comparison_raw_ints_distance_zero_default
      { id := "p1", totalStepsNum := some 0, stepGoalNum := some 10000,
        totalDistanceKmNum := some 0 }
      { calendarDate := some "2024-05-01", totalSteps := none,
        stepGoal := some 10000, totalDistance := none }).2.1 rfl rfl,
   ((comparison_raw_ints_distance_zero_default
      { id := "p1", totalStepsNum := some 0, stepGoalNum := some 10000,
        totalDistanceKmNum := some 0 }
      { calendarDate := some "2024-05-01", totalSteps := none,
        stepGoal := some 10000, totalDistance := none }).1 rfl).2.1⟩

/-- C5: the cached-token restore failure is swallowed — the outcome
never depends on which error the restore raised, and the failure only
triggers the fallback to the interactive login — while a failure of the
primary login, of the second-factor resume, or of the token dump
propagates to the caller as that very error; and no external call is
ever retried (no call appears twice in any trace). -/
theorem auth_failure_semantics (env : GarminEnv) (store0 : Option String) :
    (∀ e e' : String,
      login_garmin_with_mfa { env with tokenLogin := Except.error e } store0 =
      login_garmin_with_mfa { env with tokenLogin := Except.error e' } store0) ∧
    (∀ e : String, env.tokenLogin = Except.error e →
      AuthEvent.mfaLoginCall ∈ (login_garmin_with_mfa env store0).2.1) ∧
    (∀ e e' : String, env.tokenLogin = Except.error e →
      env.mfaLogin = Except.error e' →
      (login_garmin_with_mfa env store0).1 = Except.error e') ∧
    (∀ e ch e2 : String, env.tokenLogin = Except.error e →
      env.mfaLogin = Except.ok ("needs_mfa", ch) →
      env.resumeLogin ch env.promptCode = Except.error e2 →
      (login_garmin_with_mfa env store0).1 = Except.error e2) ∧
    (∀ e r1 ch e3 : String, env.tokenLogin = Except.error e →
      env.mfaLogin = Except.ok (r1, ch) →
      env.resumeLogin ch env.promptCode = Except.ok () →
      env.dumpTokens = Except.error e3 →
      (login_garmin_with_mfa env store0).1 = Except.error e3) ∧
    (login_garmin_with_mfa env store0).2.1.Nodup := by
  refine ⟨fun e e' => rfl, fun e he => ?_, fun e e' he hm => ?_,
    fun e ch e2 he hm hres => ?_, fun e r1 ch e3 he hm hres hd => ?_, ?_⟩
  · unfold login_garmin_with_mfa
    rw [he]
    cases env.mfaLogin with
    | error e' => simp
    | ok p =>
        obtain ⟨r1, ch⟩ := p
        by_cases hr : r1 = "needs_mfa"
        · simp only [hr, if_pos rfl]
          cases env.resumeLogin ch env.promptCode with
          | error e2 => simp
          | ok u =>
              cases env.dumpTokens with
              | error e3 => simp
              | ok u2 => simp
        · simp only [if_neg hr]
          cases env.dumpTokens with
          | error e3 => simp
          | ok u2 => simp
  · simp [login_garmin_with_mfa, he, hm]
  · simp [login_garmin_with_mfa, he, hm, hres]
  · by_cases hr : r1 = "needs_mfa"
    · subst hr
      simp [login_garmin_with_mfa, he, hm, hres, hd]
    · simp [login_garmin_with_mfa, he, hm, hr, hd]
  · have h5 := login_trace_shapes env store0
    simp only [List.mem_cons, List.mem_singleton] at h5
    rcases h5 with h | h | h | h | h | h <;> first
      | (rw [h]; decide)
      | exact absurd h (by simp)

/-- Witness for C5 at a concrete environment: a failed restore falls
back to the interactive login and the trace repeats no call. -/
theorem auth_failure_semantics_witness :
    AuthEvent.mfaLoginCall ∈
      (login_garmin_with_mfa
        { tokenLogin := Except.error "corrupt",
          mfaLogin := Except.error "bad credentials",
          resumeLogin := fun _ _ => Except.ok (), promptCode := "999999",
          dumpTokens := Except.ok (), newTokens := "tok3" } none).2.1 ∧
    (login_garmin_with_mfa
      { tokenLogin := Except.error "corrupt",
        mfaLogin := Except.error "bad credentials",
        resumeLogin := fun _ _ => Except.ok (), promptCode := "999999",
        dumpTokens := Except.ok (), newTokens := "tok3" } none).1 =
      Except.error "bad credentials" :=
  ⟨(auth_failure_semantics
      { tokenLogin := Except.error "corrupt",
        mfaLogin := Except.error "bad credentials",
        resumeLogin := fun _ _ => Except.ok (), promptCode := "999999",
        dumpTokens := Except.ok (), newTokens := "tok3" } none).2.1 "corrupt" rfl,
   (auth_failure_semantics
      { tokenLogin := Except.error "corrupt",
        mfaLogin := Except.error "bad credentials",
        resumeLogin := fun _ _ => Except.ok (), promptCode := "999999",
        dumpTokens := Except.ok (), newTokens := "tok3" } none).2.2.1 "corrupt"
      "bad credentials" rfl rfl⟩

end GarminToNotion
